import Mathlib

/-!
Verification of the kalessin/stocks spreadsheet-update core.

This file shallowly embeds the parts of `process.py` and `stocks/formula.py`
that the claims concern:

* the column-label / ordinal conversions `_get_column_ord` and
  `_get_column_from_ord`;
* the run-length-compressed axis lookup shared by `Row.getCell` and
  `Sheet._getRowByIndex` (the split-on-locate algorithm is identical for the
  column axis of a row and the row axis of a sheet, so it is embedded once);
* `Cell.setValue`;
* the period-type filter of `Process.run`;
* the formula evaluator `evaluate` of `stocks/formula.py`, including a model
  of the Python expression evaluation (`eval`) it applies to the substituted
  formula text.

Machine integers do not occur (Python integers are unbounded, embedded as
`Int`/`Nat`).  Fallible code returns `Except`/`Option`.  A few functions use
an explicit fuel argument in place of Python's unbounded recursion or
`re.finditer` loops; the fuel is always chosen large enough and only bounds
recursion depth, it never changes the computed value on the inputs the
source can reach.
-/

/-! ## Column label arithmetic (`process.py`, `_get_column_ord` /
`_get_column_from_ord`)

A column label is embedded as the list of its characters.  The Python
function carries a `colord` accumulator with default value 1; note that the
recursive call passes `26 * (firstord + 1) + 1` and discards the incoming
accumulator, exactly as the source does. -/

def _get_column_ord : List Char → Nat → Nat
  | [], colord => colord
  | [c], colord => colord + (c.toNat - 65)
  | c :: rest, _ => _get_column_ord rest (26 * ((c.toNat - 65) + 1) + 1)

/-- Wrapper supplying the Python default argument `colord=1`. -/
def columnOrd (col : List Char) : Nat := _get_column_ord col 1

/-- Body of `_get_column_from_ord`, with a fuel argument making the
recursion structural.  The Python recursion is on `(ordinal - 1) // 26`,
which is strictly smaller than `ordinal` whenever `ordinal > 26`, so a fuel
equal to the ordinal itself always suffices. -/
def fromOrdGo : Nat → Nat → List Char
  | 0, ordinal => [Char.ofNat (ordinal + 64)]
  | fuel + 1, ordinal =>
    if ordinal ≤ 26 then [Char.ofNat (ordinal + 64)]
    else fromOrdGo fuel ((ordinal - 1) / 26) ++ fromOrdGo fuel ((ordinal - 1) % 26 + 1)

def _get_column_from_ord (ordinal : Nat) : List Char := fromOrdGo ordinal ordinal

def _incr_column (column : List Char) : List Char :=
  _get_column_from_ord (columnOrd column + 1)

/-! ## Run-length-compressed axis lookup (`Row.getCell` /
`Sheet._getRowByIndex`)

A structural unit (a `TableCell` of a row, or a `TableRow` of a sheet) is a
run with a repeat count and an identity.  The identity stands for object
identity of the underlying structural-tree node: the code creates fresh
nodes with `_copycell` / `TableRow(...)`, so freshly inserted runs get fresh
identifiers from a counter threaded through `locateRun`.  A repeat count of
`1` embeds an absent `numbercolumnsrepeated` / `numberrowsrepeated`
attribute (the code reads absent attributes as 1). -/

structure Run where
  count : Nat
  id : Nat
deriving DecidableEq, Repr

inductive LocErr where
  | coordinateOutOfRange
deriving DecidableEq, Repr

/-- Scan loop of `Row.getCell` / `Sheet._getRowByIndex`.  `target` is the
1-based ordinal (`colord` / `idx`), `seen` the running total (`coln` /
`rown`), `fresh` the next free identity.  Returns the mutated axis, the
identity of the returned unit, and the next free identity.  The three
branches are, in source order: target strictly inside the run
(first-slot and middle sub-cases), target on the run's last slot, and
advance.  Exhausting the runs raises `ValueError`
(spec name: CoordinateOutOfRange). -/
def locateAux (target : Nat) : Nat → Nat → List Run → Except LocErr (List Run × Nat × Nat)
  | _, _, [] => .error .coordinateOutOfRange
  | seen, fresh, r :: rest =>
    let n := r.count
    if seen + n > target then
      if target - seen = 1 then
        -- remove the repeated attribute and insert a fresh copy with
        -- repeat count n - 1 after the current unit; return the current unit
        .ok (⟨1, r.id⟩ :: ⟨n - 1, fresh⟩ :: rest, r.id, fresh + 1)
      else
        -- remove the repeated attribute, insert a fresh unit (implicit
        -- count 1) and, when n > 2, a second fresh unit with count n - 2
        -- (implicit 1 when n = 3); return the first inserted unit
        if n > 2 then
          .ok (⟨1, r.id⟩ :: ⟨1, fresh⟩ :: ⟨if n > 3 then n - 2 else 1, fresh + 1⟩ :: rest,
               fresh, fresh + 2)
        else
          .ok (⟨1, r.id⟩ :: ⟨1, fresh⟩ :: rest, fresh, fresh + 1)
    else if seen + n = target then
      .ok (r :: rest, r.id, fresh)
    else
      match locateAux target (seen + n) fresh rest with
      | .ok (rest', rid, fresh') => .ok (r :: rest', rid, fresh')
      | .error e => .error e

def locateRun (axis : List Run) (target : Nat) (fresh : Nat) :
    Except LocErr (List Run × Nat × Nat) :=
  locateAux target 0 fresh axis

/-- Total repeat count of an axis (its logical length). -/
def totalCount (axis : List Run) : Nat := (axis.map Run.count).sum

/-- Logical position of the first slot covered by the run with identity
`uid`, 1-based; `none` if no run has that identity. -/
def positionOfId : List Run → Nat → Option Nat
  | [], _ => none
  | r :: rest, uid =>
    if r.id = uid then some 1
    else match positionOfId rest uid with
      | some p => some (r.count + p)
      | none => none

/-- Apply a sequence of locates in order, keeping the mutated axis of each
successful call (a failed call leaves the axis unchanged, as the code
mutates nothing before raising). -/
def applyLocates : List Nat → List Run → Nat → List Run × Nat
  | [], axis, fresh => (axis, fresh)
  | k :: ks, axis, fresh =>
    match locateRun axis k fresh with
    | .ok (axis', _, fresh') => applyLocates ks axis' fresh'
    | .error _ => applyLocates ks axis fresh

/-! ## Lemmas about the axis lookup -/

theorem totalCount_nil : totalCount [] = 0 := rfl

theorem totalCount_cons (r : Run) (rest : List Run) :
    totalCount (r :: rest) = r.count + totalCount rest := by
  simp [totalCount]

/-- Scanning past the end of the axis raises CoordinateOutOfRange. -/
theorem locateAux_out_of_range (target : Nat) :
    ∀ (axis : List Run) (seen fresh : Nat), seen + totalCount axis < target →
    locateAux target seen fresh axis = .error .coordinateOutOfRange := by
  intro axis
  induction axis with
  | nil => intro seen fresh _; rfl
  | cons r rest ih =>
    intro seen fresh hlt
    rw [totalCount_cons] at hlt
    have h1 : ¬ (seen + r.count > target) := by omega
    have h2 : ¬ (seen + r.count = target) := by omega
    have h3 : seen + r.count + totalCount rest < target := by omega
    simp only [locateAux, if_neg h1, if_neg h2, ih (seen + r.count) fresh h3]

/-- Any successful lookup of an ordinal greater than the running total
preserves the total repeat count of the remaining axis. -/
theorem locateAux_preserves_total (target : Nat) :
    ∀ (axis : List Run) (seen fresh : Nat), seen < target →
    ∀ res, locateAux target seen fresh axis = .ok res →
    totalCount res.1 = totalCount axis := by
  intro axis
  induction axis with
  | nil => intro seen fresh _ res h; simp [locateAux] at h
  | cons r rest ih =>
    intro seen fresh hlt res h
    simp only [locateAux] at h
    by_cases h1 : seen + r.count > target
    · rw [if_pos h1] at h
      by_cases h2 : target - seen = 1
      · rw [if_pos h2] at h
        cases h
        simp only [totalCount_cons]
        omega
      · rw [if_neg h2] at h
        by_cases h3 : r.count > 2
        · rw [if_pos h3] at h
          cases h
          simp only [totalCount_cons]
          by_cases h4 : r.count > 3 <;> simp [h4] <;> omega
        · -- unreachable when 1 ≤ target: the middle case forces count ≥ 3
          omega
    · rw [if_neg h1] at h
      by_cases h2 : seen + r.count = target
      · rw [if_pos h2] at h
        cases h
        rfl
      · rw [if_neg h2] at h
        cases hrec : locateAux target (seen + r.count) fresh rest with
        | ok res' =>
          rw [hrec] at h
          cases h
          obtain ⟨rest', rid, fresh'⟩ := res'
          have := ih (seen + r.count) fresh (by omega) (rest', rid, fresh') hrec
          simp only [totalCount_cons, this]
        | error e => rw [hrec] at h; cases h

theorem locateRun_preserves_total (axis : List Run) (target fresh : Nat)
    (h1 : 1 ≤ target) (res : List Run × Nat × Nat)
    (h : locateRun axis target fresh = .ok res) :
    totalCount res.1 = totalCount axis :=
  locateAux_preserves_total target axis 0 fresh h1 res h

/-- A sequence of locates with 1-based ordinals never changes the total
repeat count of the axis. -/
theorem applyLocates_preserves_total :
    ∀ (ks : List Nat) (axis : List Run) (fresh : Nat), (∀ k ∈ ks, 1 ≤ k) →
    totalCount (applyLocates ks axis fresh).1 = totalCount axis := by
  intro ks
  induction ks with
  | nil => intro axis fresh _; rfl
  | cons k ks ih =>
    intro axis fresh hk
    simp only [applyLocates]
    cases hres : locateRun axis k fresh with
    | ok res =>
      obtain ⟨axis', rid, fresh'⟩ := res
      have htot := locateRun_preserves_total axis k fresh
        (hk k (List.mem_cons_self k ks)) (axis', rid, fresh') hres
      rw [ih axis' fresh' (fun j hj => hk j (List.mem_cons_of_mem k hj))]
      exact htot
    | error e => exact ih axis fresh (fun j hj => hk j (List.mem_cons_of_mem k hj))

/-! ## Claims about the compressed axis -/

/-- C1: locating an ordinal strictly inside a run does NOT perform the
three-way split the spec describes.  Concrete evaluation of the code: on an
axis that is a single run of repeat count 4, locating ordinal 3 (a middle
slot: neither first nor last) splits the run into counts [1, 1, 2] — not the
claimed [target-seen-1, 1, n-(target-seen)] = [2, 1, 1] — and the returned
unit (identity 1, the first inserted copy) sits at logical position 2, not
at the requested ordinal 3. -/
theorem claim_C1_middle_split_eval :
    locateRun [⟨4, 0⟩] 3 1 = .ok ([⟨1, 0⟩, ⟨1, 1⟩, ⟨2, 2⟩], 1, 3) ∧
    positionOfId [⟨1, 0⟩, ⟨1, 1⟩, ⟨2, 2⟩] 1 = some 2 ∧
    some 2 ≠ some 3 :=
  ⟨rfl, rfl, by decide⟩

/-- C2: the total repeat count is indeed preserved, but the returned units
alias: on an axis that is a single run of repeat count 4, locating ordinal 3
and then locating ordinal 2 on the resulting axis return the unit with the
same identity 1, so two distinct in-range ordinals do not yield distinct
units.  Concrete evaluation of the code at that failing input. -/
theorem claim_C2_alias_eval :
    locateRun [⟨4, 0⟩] 3 1 = .ok ([⟨1, 0⟩, ⟨1, 1⟩, ⟨2, 2⟩], 1, 3) ∧
    locateRun [⟨1, 0⟩, ⟨1, 1⟩, ⟨2, 2⟩] 2 3 = .ok ([⟨1, 0⟩, ⟨1, 1⟩, ⟨2, 2⟩], 1, 3) ∧
    totalCount [⟨1, 0⟩, ⟨1, 1⟩, ⟨2, 2⟩] = totalCount [⟨4, 0⟩] :=
  ⟨rfl, rfl, rfl⟩

/-- C8: locating an ordinal strictly greater than the axis's total repeat
count fails with CoordinateOutOfRange, regardless of how many prior locates
(with 1-based ordinals, as every call site passes) were performed on the
axis. -/
theorem claim_C8_out_of_range (axis : List Run) (fresh : Nat) (priors : List Nat)
    (target : Nat) (hp : ∀ k ∈ priors, 1 ≤ k) (ht : totalCount axis < target) :
    locateRun (applyLocates priors axis fresh).1 target (applyLocates priors axis fresh).2 =
      .error .coordinateOutOfRange := by
  have htot := applyLocates_preserves_total priors axis fresh hp
  exact locateAux_out_of_range target (applyLocates priors axis fresh).1
    0 (applyLocates priors axis fresh).2 (by omega)

/-- Witness for C8 at a concrete input: an axis of one run of count 3, one
prior locate of ordinal 2, then a locate of ordinal 5. -/
theorem claim_C8_out_of_range_witness :
    locateRun (applyLocates [2] [⟨3, 0⟩] 1).1 5 (applyLocates [2] [⟨3, 0⟩] 1).2 =
      .error .coordinateOutOfRange :=
  claim_C8_out_of_range [⟨3, 0⟩] 1 [2] 5 (by decide) (by decide)

/-! ## Claims about the column label conversions -/

/-- C3: the round-trip fails for labels of three letters: the recursive call
of `_get_column_ord` discards its accumulator, so `ordinal("AAA")` evaluates
to 27 (the ordinal of "AA") instead of 703, and
`label(ordinal("AAA")) = "AA" ≠ "AAA"`. -/
theorem claim_C3_roundtrip_counterexample :
    columnOrd ['A', 'A', 'A'] = 27 ∧
    _get_column_from_ord (columnOrd ['A', 'A', 'A']) = ['A', 'A'] ∧
    ['A', 'A'] ≠ ['A', 'A', 'A'] := by
  refine ⟨rfl, rfl, ?_⟩
  decide

set_option maxHeartbeats 1000000 in
set_option maxRecDepth 10000 in
/-- C3 amended: the round-trip holds exactly on the range the two-letter
encoding covers: `label(ordinal(x)) = x` for every valid label `x` of one or
two uppercase letters, and `ordinal(label(n)) = n` for every
`1 ≤ n ≤ 702` (= ordinal of "ZZ").  Beyond that range both directions
break, as the counterexample shows. -/
theorem claim_C3_roundtrip_amended :
    (∀ d, d < 26 →
      _get_column_from_ord (columnOrd [Char.ofNat (65 + d)]) = [Char.ofNat (65 + d)]) ∧
    (∀ d1, d1 < 26 → ∀ d2, d2 < 26 →
      _get_column_from_ord (columnOrd [Char.ofNat (65 + d1), Char.ofNat (65 + d2)]) =
        [Char.ofNat (65 + d1), Char.ofNat (65 + d2)]) ∧
    (∀ n, n < 703 → 1 ≤ n → columnOrd (_get_column_from_ord n) = n) := by
  refine ⟨?_, ?_, ?_⟩ <;> decide

/-- Witness for C3 amended at concrete inputs: the label "Z" round-trips,
and the ordinal 702 round-trips. -/
theorem claim_C3_roundtrip_witness :
    _get_column_from_ord (columnOrd [Char.ofNat (65 + 25)]) = [Char.ofNat (65 + 25)] ∧
    columnOrd (_get_column_from_ord 702) = 702 :=
  ⟨claim_C3_roundtrip_amended.1 25 (by decide),
   claim_C3_roundtrip_amended.2.2 702 (by decide) (by decide)⟩

/-! ## Cell value writes (`process.py`, `Cell.setValue`)

The odf cell node is embedded by its attributes relevant to `setValue`
(`valuetype`, `value`, `formula`), a list of all remaining attributes (kept
to state frame conditions), and the list of its child text paragraphs.
`getAttribute` of an absent attribute returns `None`, embedded as `none`;
Python truthiness of an attribute is "present and non-empty". -/

structure OdfCell where
  valuetype : Option String
  value : Option String
  formula : Option String
  otherAttrs : List (String × String)
  children : List String
deriving DecidableEq, Repr

inductive SetValueError where
  /-- the `assert` on a formula write to a cell with no (truthy) formula
  attribute; spec name: PreconditionError -/
  | preconditionError
  /-- the `ValueError` on a value type other than "float"/"string"; spec
  name: UnsupportedTypeError -/
  | unsupportedType
deriving DecidableEq, Repr

def pyTruthyAttr : Option String → Bool
  | none => false
  | some s => !(s == "")

/-- Replace the cell's displayed text: remove the first child if present,
then append a paragraph with the string form of the value. -/
def replaceCellText (c : OdfCell) (text : String) : OdfCell :=
  { c with children := c.children.drop 1 ++ [text] }

/-- Embedding of `Cell.setValue(value, vtype, is_formula)`.  `value` is the
string form of the written value (the attribute store stringifies values).
Returns the post-state of the cell and the raised error, if any; on an
error, the mutations performed before the `raise` are kept, exactly as the
in-place Python mutation does. -/
def setValue (cell : OdfCell) (value vtype : String) (is_formula : Bool) :
    OdfCell × Option SetValueError :=
  let c1 := { cell with valuetype := some vtype }
  if is_formula then
    if pyTruthyAttr c1.formula then
      (replaceCellText { c1 with value := some value } value, none)
    else
      (c1, some .preconditionError)
  else
    if vtype == "float" || vtype == "string" then
      let c2 := { c1 with value := some value }
      let c3 := if pyTruthyAttr c2.formula then { c2 with formula := none } else c2
      (replaceCellText c3 value, none)
    else
      (c1, some .unsupportedType)

/-! ## Period-type filter (`process.py`, `Process.run`)

The two `continue` statements at the top of the loop over period records. -/

/-- True iff the record is skipped by the period-type filter. -/
def skipsRecord (period_type statement : String) (annual_period : Bool) : Bool :=
  (period_type == "annual" && !annual_period) ||
  (!(period_type == "annual") && annual_period && !(statement == "balance_sheet_statement"))

/-! ## Claims about `setValue` and the period filter -/

/-- C9: a plain value write does NOT remove every pre-existing formula
attribute: the removal is guarded by Python truthiness, so a formula
attribute holding the empty string survives a plain float write. -/
theorem claim_C9_counterexample :
    (OdfCell.mk none none (some "") [] []).formula ≠ none ∧
    (setValue (OdfCell.mk none none (some "") [] []) "5" "float" false).1.formula = some "" := by
  exact ⟨by decide, rfl⟩

/-- C9 amended: a plain value write (is_formula false, value type "float" or
"string") removes any pre-existing non-empty formula attribute (an empty
formula attribute is left in place, since the code tests the attribute's
truthiness), and a formula-result write (is_formula true) to a cell whose
formula attribute is absent or empty fails with PreconditionError. -/
theorem claim_C9_strip_and_precondition (cell : OdfCell) (v t : String)
    (ht : t = "float" ∨ t = "string") :
    (pyTruthyAttr cell.formula = true →
      (setValue cell v t false).1.formula = none ∧ (setValue cell v t false).2 = none) ∧
    (pyTruthyAttr cell.formula = false →
      (setValue cell v t true).2 = some .preconditionError) := by
  constructor
  · intro hf
    have htb : (t == "float" || t == "string") = true := by
      rcases ht with h | h <;> simp [h]
    simp [setValue, htb, hf, replaceCellText]
  · intro hf
    simp [setValue, hf]

/-- Witness for C9 amended: a cell carrying formula "of:=[.K3]" has it
stripped by a plain float write, and a formula-result write to a cell with
no formula attribute fails with PreconditionError. -/
theorem claim_C9_strip_and_precondition_witness :
    ((setValue (OdfCell.mk none none (some "of:=[.K3]") [] []) "5" "float" false).1.formula = none ∧
     (setValue (OdfCell.mk none none (some "of:=[.K3]") [] []) "5" "float" false).2 = none) ∧
    (setValue (OdfCell.mk none none none [] []) "5" "float" true).2 = some .preconditionError :=
  ⟨(claim_C9_strip_and_precondition (OdfCell.mk none none (some "of:=[.K3]") [] [])
      "5" "float" (Or.inl rfl)).1 (by decide),
   (claim_C9_strip_and_precondition (OdfCell.mk none none none [] [])
      "5" "float" (Or.inl rfl)).2 (by decide)⟩

/-- C10: a formula-result write (is_formula true) to a cell that carries a
formula string leaves the formula attribute unchanged and touches no
attribute other than valuetype and value, and no part of the cell other
than those attributes and the displayed text. -/
theorem claim_C10_formula_frame (cell : OdfCell) (v t : String)
    (_hf : cell.formula ≠ none) :
    (setValue cell v t true).1.formula = cell.formula ∧
    (setValue cell v t true).1.otherAttrs = cell.otherAttrs := by
  unfold setValue
  by_cases h : pyTruthyAttr ({ cell with valuetype := some t } : OdfCell).formula = true
  · simp [h, replaceCellText]
  · simp at h
    simp [h]

/-- Witness for C10 at a concrete cell carrying formula "of:=[.K3]" and one
extra attribute. -/
theorem claim_C10_formula_frame_witness :
    (setValue (OdfCell.mk (some "float") (some "1") (some "of:=[.K3]")
        [("stylename", "s1")] ["1"]) "9" "float" true).1.formula = some "of:=[.K3]" ∧
    (setValue (OdfCell.mk (some "float") (some "1") (some "of:=[.K3]")
        [("stylename", "s1")] ["1"]) "9" "float" true).1.otherAttrs = [("stylename", "s1")] :=
  claim_C10_formula_frame
    (OdfCell.mk (some "float") (some "1") (some "of:=[.K3]") [("stylename", "s1")] ["1"])
    "9" "float" (by decide)

/-- C7: the balance-sheet exception only applies in one direction: during an
annual run, a sub-annual balance-sheet record IS skipped, while the claim
says it is processed. -/
theorem claim_C7_counterexample :
    skipsRecord "annual" "balance_sheet_statement" false = true := rfl

/-- C7 amended: processing annual periods skips exactly the sub-annual
records, with no balance-sheet exception in that direction; processing
sub-annual periods skips exactly the annual records whose statement is not
balance_sheet_statement (annual balance-sheet records are accepted there). -/
theorem claim_C7_period_filter (period_type statement : String) (annual_period : Bool) :
    skipsRecord period_type statement annual_period =
      (if period_type == "annual" then !annual_period
       else annual_period && !(statement == "balance_sheet_statement")) := by
  unfold skipsRecord
  by_cases h : period_type == "annual" <;> simp [h]

/-! ## Python value and expression model for `stocks/formula.py`

`evaluate` substitutes cached cell values into the formula text and hands
the resulting string to Python's `eval`.  The values a cache can hold are
integers, floats, strings, and (inside the evaluator) lists.  Python floats
are IEEE doubles; they are embedded as exact rationals, which agrees with
Python on every computation the claims exercise (none of the claims'
inputs produce a float at all — division by a non-zero number is the only
float producer and appears only under error hypotheses). -/

inductive PyVal where
  | int : Int → PyVal
  | float : Rat → PyVal
  | str : String → PyVal
  | list : List PyVal → PyVal

inductive PyExc where
  | zeroDivision
  | typeError
  | syntaxError
  | nameError
deriving DecidableEq, Repr

/-- Python `repr` of a float, used only when a cache value is a float: exact
for floats with denominator 1; other rationals are shown as fractions,
diverging from Python's shortest-decimal form, but no claim reaches them. -/
def floatRepr (q : Rat) : String :=
  if q.den == 1 then toString q.num ++ ".0" else toString q.num ++ "/" ++ toString q.den

/-- Python `repr` on values, fuelled on the structural size so the nested
list recursion stays structural; `pyRepr` below supplies sufficient fuel. -/
def pyReprGo : Nat → PyVal → String
  | _, .int n => toString n
  | _, .float q => floatRepr q
  | _, .str s => "\x27" ++ s ++ "\x27"
  | 0, .list _ => "[]"
  | fuel + 1, .list vs => "[" ++ String.intercalate ", " (vs.map (pyReprGo fuel)) ++ "]"

/-- Structural size of a value, giving an upper bound for the repr fuel. -/
def pyValSize : Nat → PyVal → Nat
  | _, .int _ => 1
  | _, .float _ => 1
  | _, .str _ => 1
  | 0, .list _ => 1
  | fuel + 1, .list vs => 1 + (vs.map (pyValSize fuel)).sum

def pyRepr (v : PyVal) : String := pyReprGo (pyValSize 1000000 v) v

/-- Python `+`: numeric addition with int/float promotion, string and list
concatenation; every mixed combination raises TypeError. -/
def pyAdd : PyVal → PyVal → Except PyExc PyVal
  | .int a, .int b => .ok (.int (a + b))
  | .int a, .float q => .ok (.float ((a : Rat) + q))
  | .float q, .int a => .ok (.float (q + (a : Rat)))
  | .float a, .float b => .ok (.float (a + b))
  | .str a, .str b => .ok (.str (a ++ b))
  | .list a, .list b => .ok (.list (a ++ b))
  | _, _ => .error .typeError

/-- Python `-` (binary): numbers only. -/
def pySub : PyVal → PyVal → Except PyExc PyVal
  | .int a, .int b => .ok (.int (a - b))
  | .int a, .float q => .ok (.float ((a : Rat) - q))
  | .float q, .int a => .ok (.float (q - (a : Rat)))
  | .float a, .float b => .ok (.float (a - b))
  | _, _ => .error .typeError

def strRepeat (s : String) (n : Int) : String :=
  String.join (List.replicate n.toNat s)

def listRepeat (l : List PyVal) (n : Int) : List PyVal :=
  List.flatten (List.replicate n.toNat l)

/-- Python `*`: numeric product, and sequence repetition for int*str,
str*int, int*list, list*int (a non-positive count yields the empty
sequence); everything else raises TypeError. -/
def pyMul : PyVal → PyVal → Except PyExc PyVal
  | .int a, .int b => .ok (.int (a * b))
  | .int a, .float q => .ok (.float ((a : Rat) * q))
  | .float q, .int a => .ok (.float (q * (a : Rat)))
  | .float a, .float b => .ok (.float (a * b))
  | .int n, .str s => .ok (.str (strRepeat s n))
  | .str s, .int n => .ok (.str (strRepeat s n))
  | .int n, .list l => .ok (.list (listRepeat l n))
  | .list l, .int n => .ok (.list (listRepeat l n))
  | _, _ => .error .typeError

def numQ : PyVal → Option Rat
  | .int n => some (n : Rat)
  | .float q => some q
  | _ => none

/-- Python `/`: true division, always a float; a zero divisor raises
ZeroDivisionError; non-numeric operands raise TypeError. -/
def pyDiv : PyVal → PyVal → Except PyExc PyVal
  | a, b =>
    match numQ a, numQ b with
    | some x, some y => if y == 0 then .error .zeroDivision else .ok (.float (x / y))
    | _, _ => .error .typeError

/-- Python unary `-`: numbers only. -/
def pyNeg : PyVal → Except PyExc PyVal
  | .int a => .ok (.int (-a))
  | .float q => .ok (.float (-q))
  | _ => .error .typeError

def pySumGo : List PyVal → PyVal → Except PyExc PyVal
  | [], acc => .ok acc
  | v :: vs, acc =>
    match pyAdd acc v with
    | .ok acc' => pySumGo vs acc'
    | .error e => .error e

/-- Python `sum`: folds `+` over a list starting from the int 0 (so any
string element raises TypeError, as 0 + str does); iterating a non-empty
string likewise raises TypeError on its first character, an empty string
sums to 0; non-iterable arguments raise TypeError. -/
def pySum : PyVal → Except PyExc PyVal
  | .list l => pySumGo l (.int 0)
  | .str s => if s.isEmpty then .ok (.int 0) else .error .typeError
  | _ => .error .typeError

/-! ## Model of Python `eval` on the substituted formula text

The substituted text is drawn from the grammar the substitution pipeline can
emit: integer and float literals, single-quoted string literals (no escape
sequences occur in the emitted text), list literals, the binary operators
`+ - * /`, unary minus, parentheses, and identifier calls (only `sum` is
meaningful; any other identifier raises NameError, as Python resolves names
at evaluation time).  Python compiles the whole string before running it,
so syntax errors preempt runtime errors; this is modelled by a syntax
check pass (`parseCheck`) before the evaluating pass (`parseEval`).  Both
passes are one recursive-descent function over a mode tag (0 expression,
1 term, 2 factor, 3 atom, 10/11 the left-associative operator loops of
expression/term, 12 the list-element loop), fuelled by the input length. -/

def quoteC : Char := '\x27'

def isDigitC (c : Char) : Bool := 48 ≤ c.toNat && c.toNat ≤ 57

def isUpperC (c : Char) : Bool := 65 ≤ c.toNat && c.toNat ≤ 90

def isAlphaC (c : Char) : Bool := isUpperC c || (97 ≤ c.toNat && c.toNat ≤ 122)

def isAlnumC (c : Char) : Bool := isAlphaC c || isDigitC c

def skipSp (cs : List Char) : List Char := cs.dropWhile (fun c => c == ' ')

def digitsToNat (ds : List Char) : Nat := ds.foldl (fun a c => 10 * a + (c.toNat - 48)) 0

/-- Value of a decimal literal `ds . ds2` as a rational. -/
def ratOfDigits (ds ds2 : List Char) : Rat :=
  (digitsToNat ds : Rat) + (digitsToNat ds2 : Rat) / ((10 : Rat) ^ ds2.length)

/-- Syntax check of one grammar production (see the mode key above);
returns the unconsumed remainder on success. -/
def parseCheck : Nat → Nat → List Char → Option (List Char)
  | 0, _, _ => none
  | fuel + 1, 0, cs => (parseCheck fuel 1 cs).bind (parseCheck fuel 10)
  | fuel + 1, 10, cs =>
    (match skipSp cs with
     | '+' :: t => (parseCheck fuel 1 t).bind (parseCheck fuel 10)
     | '-' :: t => (parseCheck fuel 1 t).bind (parseCheck fuel 10)
     | _ => some cs)
  | fuel + 1, 1, cs => (parseCheck fuel 2 cs).bind (parseCheck fuel 11)
  | fuel + 1, 11, cs =>
    (match skipSp cs with
     | '*' :: t => (parseCheck fuel 2 t).bind (parseCheck fuel 11)
     | '/' :: t => (parseCheck fuel 2 t).bind (parseCheck fuel 11)
     | _ => some cs)
  | fuel + 1, 2, cs =>
    (match skipSp cs with
     | '-' :: t => parseCheck fuel 2 t
     | r => parseCheck fuel 3 r)
  | fuel + 1, 3, cs =>
    (match skipSp cs with
     | [] => none
     | c :: t =>
       if isDigitC c then
         let r := (c :: t).dropWhile isDigitC
         match r with
         | '.' :: r2 => some (r2.dropWhile isDigitC)
         | _ => some r
       else if c == quoteC then
         match t.dropWhile (fun d => !(d == quoteC)) with
         | _ :: r2 => some r2
         | [] => none
       else if c == '[' then
         match skipSp t with
         | ']' :: r2 => some r2
         | _ => (parseCheck fuel 0 t).bind (parseCheck fuel 12)
       else if c == '(' then
         match parseCheck fuel 0 t with
         | some r2 =>
           (match skipSp r2 with
            | ')' :: r3 => some r3
            | _ => none)
         | none => none
       else if isAlphaC c then
         let r2 := (c :: t).dropWhile isAlnumC
         match skipSp r2 with
         | '(' :: r3 =>
           (match parseCheck fuel 0 r3 with
            | some r4 =>
              (match skipSp r4 with
               | ')' :: r5 => some r5
               | _ => none)
            | none => none)
         | _ => some r2
       else none)
  | fuel + 1, 12, cs =>
    (match skipSp cs with
     | ',' :: t => (parseCheck fuel 0 t).bind (parseCheck fuel 12)
     | ']' :: t => some t
     | _ => none)
  | _ + 1, _, _ => none

/-- Evaluating pass, same grammar; `acc` is the left operand in the loop
modes (and the collected elements in list mode), ignored elsewhere.
Subexpressions are evaluated left to right, so the leftmost runtime error
propagates, as in Python. -/
def parseEval : Nat → Nat → PyVal → List Char → Except PyExc (PyVal × List Char)
  | 0, _, _, _ => .error .syntaxError
  | fuel + 1, 0, _, cs => do
    let (v, r) ← parseEval fuel 1 (.int 0) cs
    parseEval fuel 10 v r
  | fuel + 1, 10, acc, cs =>
    (match skipSp cs with
     | '+' :: t => do
       let (v2, r2) ← parseEval fuel 1 (.int 0) t
       match pyAdd acc v2 with
       | .ok a => parseEval fuel 10 a r2
       | .error e => .error e
     | '-' :: t => do
       let (v2, r2) ← parseEval fuel 1 (.int 0) t
       match pySub acc v2 with
       | .ok a => parseEval fuel 10 a r2
       | .error e => .error e
     | _ => .ok (acc, cs))
  | fuel + 1, 1, _, cs => do
    let (v, r) ← parseEval fuel 2 (.int 0) cs
    parseEval fuel 11 v r
  | fuel + 1, 11, acc, cs =>
    (match skipSp cs with
     | '*' :: t => do
       let (v2, r2) ← parseEval fuel 2 (.int 0) t
       match pyMul acc v2 with
       | .ok a => parseEval fuel 11 a r2
       | .error e => .error e
     | '/' :: t => do
       let (v2, r2) ← parseEval fuel 2 (.int 0) t
       match pyDiv acc v2 with
       | .ok a => parseEval fuel 11 a r2
       | .error e => .error e
     | _ => .ok (acc, cs))
  | fuel + 1, 2, _, cs =>
    (match skipSp cs with
     | '-' :: t => do
       let (v, r) ← parseEval fuel 2 (.int 0) t
       match pyNeg v with
       | .ok nv => .ok (nv, r)
       | .error e => .error e
     | r => parseEval fuel 3 (.int 0) r)
  | fuel + 1, 3, _, cs =>
    (match skipSp cs with
     | [] => .error .syntaxError
     | c :: t =>
       if isDigitC c then
         let ds := (c :: t).takeWhile isDigitC
         let r := (c :: t).dropWhile isDigitC
         match r with
         | '.' :: r2 =>
           .ok (.float (ratOfDigits ds (r2.takeWhile isDigitC)), r2.dropWhile isDigitC)
         | _ => .ok (.int (digitsToNat ds), r)
       else if c == quoteC then
         match t.dropWhile (fun d => !(d == quoteC)) with
         | _ :: r2 => .ok (.str (String.mk (t.takeWhile (fun d => !(d == quoteC)))), r2)
         | [] => .error .syntaxError
       else if c == '[' then
         match skipSp t with
         | ']' :: r2 => .ok (.list [], r2)
         | _ => do
           let (v, r2) ← parseEval fuel 0 (.int 0) t
           parseEval fuel 12 (.list [v]) r2
       else if c == '(' then do
         let (v, r2) ← parseEval fuel 0 (.int 0) t
         match skipSp r2 with
         | ')' :: r3 => .ok (v, r3)
         | _ => .error .syntaxError
       else if isAlphaC c then
         let nm := (c :: t).takeWhile isAlnumC
         let r2 := (c :: t).dropWhile isAlnumC
         if nm = "sum".data then
           match skipSp r2 with
           | '(' :: r3 => do
             let (v, r4) ← parseEval fuel 0 (.int 0) r3
             (match skipSp r4 with
              | ')' :: r5 =>
                (match pySum v with
                 | .ok sv => .ok (sv, r5)
                 | .error e => .error e)
              | _ => .error .syntaxError)
           | _ => .error .nameError
         else .error .nameError
       else .error .syntaxError)
  | fuel + 1, 12, acc, cs =>
    (match acc with
     | .list l =>
       (match skipSp cs with
        | ',' :: t => do
          let (v, r) ← parseEval fuel 0 (.int 0) t
          parseEval fuel 12 (.list (l ++ [v])) r
        | ']' :: t => .ok (.list l, t)
        | _ => .error .syntaxError)
     | _ => .error .syntaxError)
  | _ + 1, _, _, _ => .error .syntaxError

/-- Model of Python `eval` on a substituted formula string: compile (syntax
check over the whole string) and then evaluate. -/
def pyEval (s : String) : Except PyExc PyVal :=
  let cs := s.data
  let fuel := 16 * (cs.length + 1)
  match parseCheck fuel 0 cs with
  | some r =>
    if (skipSp r).isEmpty then
      match parseEval fuel 0 (.int 0) cs with
      | .ok (v, _) => .ok v
      | .error e => .error e
    else .error .syntaxError
  | none => .error .syntaxError

/-! ## Reference substitution and `evaluate` (`stocks/formula.py`)

The value cache (`celldict`) is embedded as an association list from
coordinate strings to values; a missing key raises KeyError, as a plain
Python dict does (`process.py` passes a self-filling dict, but the claims
quantify over the evaluator's own contract).

`re.finditer` collects the non-overlapping leftmost matches of the original
string; the code then replaces them right to left, so earlier match offsets
stay valid and replacement text is never rescanned.  This is embedded by
first cutting the string into literal/match segments (leftmost scan) and
then resolving the matches right to left, which also reproduces which
lookup raises first when several references are bad. -/

inductive EvalFailure where
  /-- the `assert colstart == colend` (spec name: UnsupportedRangeError) -/
  | unsupportedRangeError
  /-- a missing cache key (Python KeyError), raised outside the try block -/
  | keyError (coord : String)
  /-- the print-and-reraise of an exception from `eval`, carrying the
  substituted formula text (spec name: FormulaEvalError) -/
  | formulaEvalError (substituted : String) (exc : PyExc)
deriving DecidableEq, Repr

/-- Prefix test for the scanner and `str.replace`. -/
def leadsWith : List Char → List Char → Bool
  | [], _ => true
  | _ :: _, [] => false
  | p :: ps, c :: cs => p == c && leadsWith ps cs

/-- Python substring test (`pat in s`). -/
def hasSubstr : List Char → List Char → Bool
  | [], pat => pat.isEmpty
  | c :: rest, pat => leadsWith pat (c :: rest) || hasSubstr rest pat

def hasSubstrS (s pat : String) : Bool := hasSubstr s.data pat.data

/-- Match of `_RANGE_RE` = `\[\.([A-Z]+)(\d+):\.([A-Z]+)(\d+)\]` at the head
of the input; returns both column groups, both row numbers, and the
remainder after the match. -/
def matchRangeAt : List Char → Option ((List Char × Nat) × (List Char × Nat) × List Char)
  | '[' :: '.' :: rest =>
    match rest.takeWhile isUpperC, rest.dropWhile isUpperC with
    | [], _ => none
    | ls1, r1 =>
      match r1.takeWhile isDigitC, r1.dropWhile isDigitC with
      | [], _ => none
      | ds1, ':' :: '.' :: r3 =>
        (match r3.takeWhile isUpperC, r3.dropWhile isUpperC with
         | [], _ => none
         | ls2, r4 =>
           match r4.takeWhile isDigitC, r4.dropWhile isDigitC with
           | [], _ => none
           | ds2, ']' :: r6 => some ((ls1, digitsToNat ds1), (ls2, digitsToNat ds2), r6)
           | _, _ => none)
      | _, _ => none
  | _ => none

/-- Match of `_CELL_RE` = `\[\.([A-Z]+)(\d+)\]` at the head of the input. -/
def matchCellAt : List Char → Option ((List Char × Nat) × List Char)
  | '[' :: '.' :: rest =>
    match rest.takeWhile isUpperC, rest.dropWhile isUpperC with
    | [], _ => none
    | ls, r1 =>
      match r1.takeWhile isDigitC, r1.dropWhile isDigitC with
      | [], _ => none
      | ds, ']' :: r3 => some ((ls, digitsToNat ds), r3)
      | _, _ => none
  | _ => none

inductive RangeSeg where
  | txt : List Char → RangeSeg
  | rng : List Char → Nat → List Char → Nat → RangeSeg

inductive CellSeg where
  | txt : List Char → CellSeg
  | cell : List Char → Nat → CellSeg

/-- Leftmost non-overlapping scan for range references (`re.finditer`). -/
def segmentRanges : Nat → List Char → List RangeSeg
  | 0, _ => []
  | _ + 1, [] => []
  | fuel + 1, c :: rest =>
    match matchRangeAt (c :: rest) with
    | some ((c1, r1), (c2, r2), rest') => .rng c1 r1 c2 r2 :: segmentRanges fuel rest'
    | none => .txt [c] :: segmentRanges fuel rest

/-- Leftmost non-overlapping scan for single-cell references. -/
def segmentCells : Nat → List Char → List CellSeg
  | 0, _ => []
  | _ + 1, [] => []
  | fuel + 1, c :: rest =>
    match matchCellAt (c :: rest) with
    | some ((col, row), rest') => .cell col row :: segmentCells fuel rest'
    | none => .txt [c] :: segmentCells fuel rest

/-- Cache lookups for `range(rowstart, rowend + 1)`, in ascending row
order as the Python loop does. -/
def lookupRows (celldict : List (String × PyVal)) (col : String) :
    List Nat → Except EvalFailure (List PyVal)
  | [] => .ok []
  | row :: rows =>
    match List.lookup (col ++ toString row) celldict with
    | some v =>
      (match lookupRows celldict col rows with
       | .ok vs => .ok (v :: vs)
       | .error e => .error e)
    | none => .error (.keyError (col ++ toString row))

def rowRange (rowstart rowend : Nat) : List Nat :=
  (List.range (rowend + 1 - rowstart)).map (fun i => rowstart + i)

/-- Resolve range segments right to left (the reversed segment list is
consumed head first), building the substituted text back to front. -/
def substRangeSegs (celldict : List (String × PyVal)) :
    List RangeSeg → List Char → Except EvalFailure (List Char)
  | [], acc => .ok acc
  | .txt cs :: rest, acc => substRangeSegs celldict rest (cs ++ acc)
  | .rng c1 r1 c2 r2 :: rest, acc =>
    if c1 == c2 then
      match lookupRows celldict (String.mk c1) (rowRange r1 r2) with
      | .ok vals => substRangeSegs celldict rest ((pyRepr (.list vals)).data ++ acc)
      | .error e => .error e
    else .error .unsupportedRangeError

/-- Resolve single-cell segments right to left. -/
def substCellSegs (celldict : List (String × PyVal)) :
    List CellSeg → List Char → Except EvalFailure (List Char)
  | [], acc => .ok acc
  | .txt cs :: rest, acc => substCellSegs celldict rest (cs ++ acc)
  | .cell col row :: rest, acc =>
    match List.lookup (String.mk col ++ toString row) celldict with
    | some v => substCellSegs celldict rest ((pyRepr v).data ++ acc)
    | none => .error (.keyError (String.mk col ++ toString row))

/-- Python `str.replace`: left-to-right, non-overlapping, replacement text
not rescanned. -/
def replaceAll : Nat → List Char → List Char → List Char → List Char
  | 0, s, _, _ => s
  | _ + 1, [], _, _ => []
  | fuel + 1, c :: rest, pat, repl =>
    if leadsWith pat (c :: rest) then
      repl ++ replaceAll fuel ((c :: rest).drop pat.length) pat repl
    else
      c :: replaceAll fuel rest pat repl

/-- The `_REPLACEMENTS` pass: strip the `of:=` marker, lowercase `SUM`. -/
def applyReplacements (cs : List Char) : List Char :=
  let s1 := replaceAll (cs.length + 1) cs "of:=".data "".data
  replaceAll (s1.length + 1) s1 "SUM".data "sum".data

/-- The substitution phases of `evaluate`, in source order: range
references, then single-cell references, then the textual replacements.
The result is the string handed to `eval`. -/
def substitute (formula_string : String) (celldict : List (String × PyVal)) :
    Except EvalFailure String :=
  match substRangeSegs celldict (segmentRanges (formula_string.data.length + 1)
      formula_string.data).reverse [] with
  | .error e => .error e
  | .ok s1 =>
    match substCellSegs celldict (segmentCells (s1.length + 1) s1).reverse [] with
    | .error e => .error e
    | .ok s2 => .ok (String.mk (applyReplacements s2))

def sentinelDiv : String := "#DIV/0!"

/-- Embedding of `evaluate(formula_string, celldict)`: substitute, then
model the try/except around `eval`: ZeroDivisionError returns the sentinel;
TypeError returns the sentinel when the substituted text contains it and
re-raises otherwise; every other exception is re-raised after printing the
substituted text (spec name for both re-raise paths: FormulaEvalError). -/
def evaluate (formula_string : String) (celldict : List (String × PyVal)) :
    Except EvalFailure PyVal :=
  match substitute formula_string celldict with
  | .error e => .error e
  | .ok s =>
    match pyEval s with
    | .ok v => .ok v
    | .error .zeroDivision => .ok (.str sentinelDiv)
    | .error .typeError =>
      if hasSubstrS s sentinelDiv then .ok (.str sentinelDiv)
      else .error (.formulaEvalError s .typeError)
    | .error e => .error (.formulaEvalError s e)

/-! ## Claims about the formula evaluator -/

/-- C4 counterexample: a formula referencing a cell whose cached value is
the sentinel under the supported operation `*` (with an integer operand)
does not return the sentinel: Python string repetition succeeds, so
`2 * chr39 #DIV/0! chr39` evaluates to the eight-times-two-character string
`#DIV/0!#DIV/0!`, which `evaluate` returns as an ordinary value. -/
theorem claim_C4_sentinel_counterexample :
    evaluate "of:=[.K3]*[.K4]" [("K3", PyVal.int 2), ("K4", PyVal.str sentinelDiv)] =
      .ok (.str "#DIV/0!#DIV/0!") ∧
    "#DIV/0!#DIV/0!" ≠ sentinelDiv :=
  ⟨rfl, by decide⟩

/-- C4 amended: division-by-zero during evaluation of the substituted
expression returns the sentinel instead of propagating, and a formula whose
substituted text contains the sentinel (as any formula referencing a
sentinel-valued cell does) returns the sentinel whenever evaluation raises
a TypeError — which covers `-`, `/`, mixed string/number `+` and `*`, and
SUM over a sentinel, but not string concatenation (`+` of two sentinel
strings) or string repetition (`*` by an integer), which succeed in Python
and return a non-sentinel string. -/
theorem claim_C4_div_zero_sentinel (f : String) (c : List (String × PyVal)) (s : String)
    (hs : substitute f c = .ok s) :
    (pyEval s = .error .zeroDivision → evaluate f c = .ok (.str sentinelDiv)) ∧
    (hasSubstrS s sentinelDiv = true → pyEval s = .error .typeError →
      evaluate f c = .ok (.str sentinelDiv)) := by
  constructor
  · intro hz
    simp [evaluate, hs, hz]
  · intro hc ht
    simp [evaluate, hs, ht, hc]

/-- Witness for C4 amended: a division by a zero-valued cell returns the
sentinel, and a subtraction referencing a sentinel-valued cell returns the
sentinel. -/
theorem claim_C4_div_zero_sentinel_witness :
    evaluate "of:=[.K3]/[.K4]" [("K3", PyVal.int 4), ("K4", PyVal.int 0)] =
      .ok (.str sentinelDiv) ∧
    evaluate "of:=[.K3]-[.K4]" [("K3", PyVal.int 4), ("K4", PyVal.str sentinelDiv)] =
      .ok (.str sentinelDiv) :=
  ⟨(claim_C4_div_zero_sentinel "of:=[.K3]/[.K4]" [("K3", PyVal.int 4), ("K4", PyVal.int 0)]
      "4/0" rfl).1 rfl,
   (claim_C4_div_zero_sentinel "of:=[.K3]-[.K4]"
      [("K3", PyVal.int 4), ("K4", PyVal.str sentinelDiv)]
      "4-\x27#DIV/0!\x27" rfl).2 rfl rfl⟩

/-- C5: the three doctest evaluations of `evaluate` against the cache
{K3:4, K4:1, K5:-2, K7:8, K8:2, K9:-5} return exactly 3, -10, and 9. -/
theorem claim_C5_doctest_results :
    evaluate "of:=SUM([.K3:.K5])"
      [("K3", PyVal.int 4), ("K4", PyVal.int 1), ("K5", PyVal.int (-2)),
       ("K7", PyVal.int 8), ("K8", PyVal.int 2), ("K9", PyVal.int (-5))] = .ok (.int 3) ∧
    evaluate "of:=[.K5]-[.K7]"
      [("K3", PyVal.int 4), ("K4", PyVal.int 1), ("K5", PyVal.int (-2)),
       ("K7", PyVal.int 8), ("K8", PyVal.int 2), ("K9", PyVal.int (-5))] = .ok (.int (-10)) ∧
    evaluate "of:=[.K3]+SUM([.K7:.K9])"
      [("K3", PyVal.int 4), ("K4", PyVal.int 1), ("K5", PyVal.int (-2)),
       ("K7", PyVal.int 8), ("K8", PyVal.int 2), ("K9", PyVal.int (-5))] = .ok (.int 9) :=
  ⟨rfl, rfl, rfl⟩

/-- C6: a TypeError whose substituted expression does not contain the
sentinel, and every other evaluation failure that is not division-by-zero
and not a sentinel-absorbed TypeError, is re-raised as a FormulaEvalError
carrying the substituted formula text. -/
theorem claim_C6_eval_failures (f : String) (c : List (String × PyVal)) (s : String)
    (e : PyExc) (hs : substitute f c = .ok s) (he : pyEval s = .error e)
    (hz : e ≠ .zeroDivision)
    (ht : e = .typeError → hasSubstrS s sentinelDiv = false) :
    evaluate f c = .error (.formulaEvalError s e) := by
  cases e with
  | zeroDivision => exact absurd rfl hz
  | typeError => simp [evaluate, hs, he, ht rfl]
  | syntaxError => simp [evaluate, hs, he]
  | nameError => simp [evaluate, hs, he]

/-- Witness for C6: subtracting a non-sentinel string cell raises a
TypeError, which surfaces as a FormulaEvalError carrying the substituted
text. -/
theorem claim_C6_eval_failures_witness :
    evaluate "of:=[.K3]-[.K4]" [("K3", PyVal.int 4), ("K4", PyVal.str "x")] =
      .error (.formulaEvalError "4-\x27x\x27" .typeError) :=
  claim_C6_eval_failures "of:=[.K3]-[.K4]" [("K3", PyVal.int 4), ("K4", PyVal.str "x")]
    "4-\x27x\x27" .typeError rfl rfl (by decide) (fun _ => rfl)
